import Mathlib

/-!
Verification of the orbital-vs-terrestrial datacenter economic model.

The repository contains several independent re-derivations of the same
`math.js` simulation model.  This file embeds, over exact rationals (and
over the reals where trigonometry or fourth roots are involved), the
concrete calculation functions that the repository ships:

* `V2Grok.*`   — `src/audits/v2_grok_first_principles/04_orbital_calculations.py`,
  function `calculate_orbital_first_principles` (min-of-two degradation
  sizing; total cost = hardware + launch + ops + NRE);
* `TempAudit.*` — `src/temp/formula_audit.py`, `audit_orbital` (single-factor
  sizing; total cost = hardware + launch + ops + GPU-replacement + NRE);
* `V1Audit.*`  — `src/audits/v1_opus4.5/formula_audit.py`,
  `calculate_orbital`, `calculate_terrestrial` and the bisection loop of
  `calculate_breakeven_scenarios`;
* `Thermal.*`  — `src/audits/v2_grok_first_principles/06_thermal_calculations.py`,
  `calculate_thermal_first_principles` (same formulas as the v1 audit's
  `calculate_thermal`);
* `ViewFactor.*` — `src/audits/audit_opus45/view_factor_analysis.py`.

Machine floating point is modelled by exact arithmetic; `math.ceil` by
`Int.ceil`.
-/

/-- The flat parameter dictionary (`state`) shared by the audit scripts:
the orbital and terrestrial slider values of `math.js`.  `years` is a
natural number (it is used as a `range` bound); every other field is an
exact rational standing for the script's float. -/
structure State where
  years : ℕ
  targetGW : ℚ
  launchCostPerKg : ℚ
  satelliteCostPerW : ℚ
  specificPowerWPerKg : ℚ
  satellitePowerKW : ℚ
  sunFraction : ℚ
  cellDegradation : ℚ
  gpuFailureRate : ℚ
  nreCost : ℚ
  gasTurbineCapexPerKW : ℚ
  electricalCostPerW : ℚ
  mechanicalCostPerW : ℚ
  civilCostPerW : ℚ
  networkCostPerW : ℚ
  pue : ℚ
  gasPricePerMMBtu : ℚ
  heatRateBtuKwh : ℚ
  capacityFactor : ℚ

namespace V2Grok

/-- `PHYSICS["HOURS_PER_YEAR"]`. -/
def HOURS_PER_YEAR : ℚ := 8760

/-- `HARDWARE["STARSHIP_PAYLOAD_KG"]`. -/
def STARSHIP_PAYLOAD_KG : ℚ := 100000

/-- `COST_FRACTIONS["ORBITAL_OPS_ANNUAL"]`. -/
def ORBITAL_OPS_ANNUAL : ℚ := 0.01

/-- `get_derived`: `TARGET_POWER_MW = targetGW * 1000`. -/
def target_power_mw (s : State) : ℚ := s.targetGW * 1000

/-- `get_derived`: `TARGET_POWER_W = target_power_mw * 1e6`. -/
def target_power_w (s : State) : ℚ := target_power_mw s * 1e6

/-- `solar_retention = 1 - (state["cellDegradation"] / 100)`. -/
def solar_retention (s : State) : ℚ := 1 - s.cellDegradation / 100

/-- `gpu_retention = 1 - (state["gpuFailureRate"] / 100)`. -/
def gpu_retention (s : State) : ℚ := 1 - s.gpuFailureRate / 100

/-- The loop `for year in range(years): solar_capacity_sum += solar_retention ** year`. -/
def solar_capacity_sum (s : State) : ℚ :=
  ∑ y ∈ Finset.range s.years, solar_retention s ^ y

/-- `avg_solar_factor = solar_capacity_sum / years`. -/
def avg_solar_factor (s : State) : ℚ := solar_capacity_sum s / s.years

/-- The loop `for year in range(years): gpu_capacity_sum += gpu_retention ** year`. -/
def gpu_capacity_sum (s : State) : ℚ :=
  ∑ y ∈ Finset.range s.years, gpu_retention s ^ y

/-- `avg_gpu_factor = gpu_capacity_sum / years`. -/
def avg_gpu_factor (s : State) : ℚ := gpu_capacity_sum s / s.years

/-- `avg_capacity_factor = min(avg_solar_factor, avg_gpu_factor)`. -/
def avg_capacity_factor (s : State) : ℚ := min (avg_solar_factor s) (avg_gpu_factor s)

/-- `sunlight_adjusted_factor = avg_capacity_factor * sunFraction`. -/
def sunlight_adjusted_factor (s : State) : ℚ := avg_capacity_factor s * s.sunFraction

/-- `required_initial_power_w = TARGET_POWER_W / sunlight_adjusted_factor`. -/
def required_initial_power_w (s : State) : ℚ := target_power_w s / sunlight_adjusted_factor s

/-- `mass_per_sat_kg = (satellitePowerKW * 1000) / specificPowerWPerKg`. -/
def mass_per_sat_kg (s : State) : ℚ := s.satellitePowerKW * 1000 / s.specificPowerWPerKg

/-- `satellite_count = math.ceil(required_initial_power_w / (satellitePowerKW * 1000))`. -/
def satellite_count (s : State) : ℤ :=
  ⌈required_initial_power_w s / (s.satellitePowerKW * 1000)⌉

/-- `total_mass_kg = satellite_count * mass_per_sat_kg`. -/
def total_mass_kg (s : State) : ℚ := satellite_count s * mass_per_sat_kg s

/-- `actual_initial_power_w = satellite_count * satellitePowerKW * 1000`. -/
def actual_initial_power_w (s : State) : ℚ := satellite_count s * s.satellitePowerKW * 1000

/-- `hardware_cost = satelliteCostPerW * actual_initial_power_w`. -/
def hardware_cost (s : State) : ℚ := s.satelliteCostPerW * actual_initial_power_w s

/-- `launch_cost = launchCostPerKg * total_mass_kg`. -/
def launch_cost (s : State) : ℚ := s.launchCostPerKg * total_mass_kg s

/-- `base_cost = hardware_cost + launch_cost`. -/
def base_cost (s : State) : ℚ := hardware_cost s + launch_cost s

/-- `ops_cost = hardware_cost * ORBITAL_OPS_ANNUAL * years`. -/
def ops_cost (s : State) : ℚ := hardware_cost s * ORBITAL_OPS_ANNUAL * s.years

/-- `nre_cost = nreCost * 1e6`. -/
def nre_cost (s : State) : ℚ := s.nreCost * 1e6

/-- `total_cost = base_cost + ops_cost + nre_cost`. -/
def total_cost (s : State) : ℚ := base_cost s + ops_cost s + nre_cost s

/-- `cost_per_w = total_cost / TARGET_POWER_W`. -/
def cost_per_w (s : State) : ℚ := total_cost s / target_power_w s

/-- `starship_launches = math.ceil(total_mass_kg / STARSHIP_PAYLOAD_KG)`. -/
def starship_launches (s : State) : ℤ := ⌈total_mass_kg s / STARSHIP_PAYLOAD_KG⌉

/-- The state with a replaced launch cost, as the audit scripts' mutation
`state["launchCostPerKg"] = mid` produces it. -/
def setLaunch (s : State) (c : ℚ) : State := { s with launchCostPerKg := c }

end V2Grok

/-- The default `math.js` slider values (v2 audit copy). -/
def defaultState : State :=
  { years := 5, targetGW := 1, launchCostPerKg := 500, satelliteCostPerW := 20,
    specificPowerWPerKg := 36.5, satellitePowerKW := 27, sunFraction := 0.98,
    cellDegradation := 2.5, gpuFailureRate := 9, nreCost := 1000,
    gasTurbineCapexPerKW := 1450, electricalCostPerW := 5.25, mechanicalCostPerW := 3,
    civilCostPerW := 2.5, networkCostPerW := 1.75, pue := 1.2, gasPricePerMMBtu := 4.3,
    heatRateBtuKwh := 6200, capacityFactor := 0.85 }

namespace V2Grok

lemma solar_capacity_sum_pos (s : State) (hyears : 0 < s.years)
    (hcell : s.cellDegradation ≤ 100) : 0 < solar_capacity_sum s := by
  have hr : 0 ≤ solar_retention s := by
    unfold solar_retention; linarith
  have h0 : (1 : ℚ) ≤ solar_capacity_sum s := by
    have := Finset.single_le_sum (f := fun y => solar_retention s ^ y)
      (fun i _ => pow_nonneg hr i) (Finset.mem_range.mpr hyears)
    simpa [solar_capacity_sum] using this
  linarith

lemma gpu_capacity_sum_pos (s : State) (hyears : 0 < s.years)
    (hgpu : s.gpuFailureRate ≤ 100) : 0 < gpu_capacity_sum s := by
  have hr : 0 ≤ gpu_retention s := by
    unfold gpu_retention; linarith
  have h0 : (1 : ℚ) ≤ gpu_capacity_sum s := by
    have := Finset.single_le_sum (f := fun y => gpu_retention s ^ y)
      (fun i _ => pow_nonneg hr i) (Finset.mem_range.mpr hyears)
    simpa [gpu_capacity_sum] using this
  linarith

lemma sunlight_adjusted_factor_pos (s : State) (hyears : 0 < s.years)
    (hcell : s.cellDegradation ≤ 100) (hgpu : s.gpuFailureRate ≤ 100)
    (hsun : 0 < s.sunFraction) : 0 < sunlight_adjusted_factor s := by
  have hy : (0 : ℚ) < s.years := by exact_mod_cast hyears
  have h1 : 0 < avg_solar_factor s :=
    div_pos (solar_capacity_sum_pos s hyears hcell) hy
  have h2 : 0 < avg_gpu_factor s :=
    div_pos (gpu_capacity_sum_pos s hyears hgpu) hy
  exact mul_pos (lt_min h1 h2) hsun

lemma target_power_w_pos (s : State) (htarget : 0 < s.targetGW) :
    0 < target_power_w s := by
  have : (0 : ℚ) < 1e6 := by norm_num
  exact mul_pos (mul_pos htarget (by norm_num)) this

lemma required_initial_power_w_pos (s : State) (hyears : 0 < s.years)
    (htarget : 0 < s.targetGW) (hcell : s.cellDegradation ≤ 100)
    (hgpu : s.gpuFailureRate ≤ 100) (hsun : 0 < s.sunFraction) :
    0 < required_initial_power_w s :=
  div_pos (target_power_w_pos s htarget)
    (sunlight_adjusted_factor_pos s hyears hcell hgpu hsun)

end V2Grok

/-- C4: in the v2 orbital model, the satellite count and the launch count are
positive integers obtained by exact ceiling, and the actual initial power
(count × per-satellite power) is at least the required initial power. -/
theorem v2_orbital_ceiling_property (s : State)
    (hyears : 0 < s.years) (htarget : 0 < s.targetGW)
    (hsat : 0 < s.satellitePowerKW) (hspec : 0 < s.specificPowerWPerKg)
    (hsun : 0 < s.sunFraction) (hcell : s.cellDegradation ≤ 100)
    (hgpu : s.gpuFailureRate ≤ 100) :
    0 < V2Grok.satellite_count s ∧ 0 < V2Grok.starship_launches s ∧
      V2Grok.required_initial_power_w s ≤ V2Grok.actual_initial_power_w s := by
  have hp : (0 : ℚ) < s.satellitePowerKW * 1000 := by positivity
  have hreq := V2Grok.required_initial_power_w_pos s hyears htarget hcell hgpu hsun
  have hcount : 0 < V2Grok.satellite_count s :=
    Int.ceil_pos.mpr (div_pos hreq hp)
  have hcountQ : (0 : ℚ) < (V2Grok.satellite_count s : ℚ) := by exact_mod_cast hcount
  have hActual : V2Grok.required_initial_power_w s ≤ V2Grok.actual_initial_power_w s := by
    have h1 : V2Grok.required_initial_power_w s / (s.satellitePowerKW * 1000) ≤
        (V2Grok.satellite_count s : ℚ) := Int.le_ceil _
    have h2 := (div_le_iff₀ hp).mp h1
    unfold V2Grok.actual_initial_power_w
    linarith [h2]
  have hmassPerSat : (0 : ℚ) < V2Grok.mass_per_sat_kg s := by
    unfold V2Grok.mass_per_sat_kg
    positivity
  have hmass : (0 : ℚ) < V2Grok.total_mass_kg s :=
    mul_pos hcountQ hmassPerSat
  have hlaunches : 0 < V2Grok.starship_launches s := by
    apply Int.ceil_pos.mpr
    apply div_pos hmass
    norm_num [V2Grok.STARSHIP_PAYLOAD_KG]
  exact ⟨hcount, hlaunches, hActual⟩

/-- C4 witness: the ceiling property holds at the default slider values. -/
theorem v2_orbital_ceiling_property_witness :
    0 < defaultState.years ∧ 0 < defaultState.targetGW ∧
      0 < defaultState.satellitePowerKW ∧ 0 < defaultState.specificPowerWPerKg ∧
      0 < defaultState.sunFraction ∧ defaultState.cellDegradation ≤ 100 ∧
      defaultState.gpuFailureRate ≤ 100 ∧
      (0 < V2Grok.satellite_count defaultState ∧
        0 < V2Grok.starship_launches defaultState ∧
        V2Grok.required_initial_power_w defaultState ≤
          V2Grok.actual_initial_power_w defaultState) :=
  ⟨by norm_num [defaultState], by norm_num [defaultState], by norm_num [defaultState],
    by norm_num [defaultState], by norm_num [defaultState], by norm_num [defaultState],
    by norm_num [defaultState],
    v2_orbital_ceiling_property defaultState (by norm_num [defaultState])
      (by norm_num [defaultState]) (by norm_num [defaultState]) (by norm_num [defaultState])
      (by norm_num [defaultState]) (by norm_num [defaultState]) (by norm_num [defaultState])⟩

/-- C2: the v2 orbital model sizes the fleet from the minimum of the two
averaged degradation factors, multiplies by the sunlit fraction, and divides
the target power by the combined factor to get the required initial power. -/
theorem v2_orbital_min_binding_constraint (s : State) :
    V2Grok.avg_solar_factor s =
        (∑ y ∈ Finset.range s.years, V2Grok.solar_retention s ^ y) / s.years ∧
      V2Grok.avg_gpu_factor s =
        (∑ y ∈ Finset.range s.years, V2Grok.gpu_retention s ^ y) / s.years ∧
      V2Grok.avg_capacity_factor s =
        min (V2Grok.avg_solar_factor s) (V2Grok.avg_gpu_factor s) ∧
      V2Grok.sunlight_adjusted_factor s =
        min (V2Grok.avg_solar_factor s) (V2Grok.avg_gpu_factor s) * s.sunFraction ∧
      V2Grok.required_initial_power_w s =
        V2Grok.target_power_w s /
          (min (V2Grok.avg_solar_factor s) (V2Grok.avg_gpu_factor s) * s.sunFraction) :=
  ⟨rfl, rfl, rfl, rfl, rfl⟩

/-- C3: the v2 orbital operations cost is one percent of the hardware cost
multiplied by the number of years. -/
theorem v2_orbital_ops_cost (s : State) :
    V2Grok.ops_cost s = V2Grok.hardware_cost s * (1 / 100) * s.years := by
  norm_num [V2Grok.ops_cost, V2Grok.ORBITAL_OPS_ANNUAL]

namespace V2Grok

lemma setLaunch_total_cost (s : State) (c : ℚ) :
    total_cost (setLaunch s c) =
      hardware_cost s + ops_cost s + nre_cost s + c * total_mass_kg s := by
  have hhw : hardware_cost (setLaunch s c) = hardware_cost s := rfl
  have hops : ops_cost (setLaunch s c) = ops_cost s := rfl
  have hnre : nre_cost (setLaunch s c) = nre_cost s := rfl
  have hmass : total_mass_kg (setLaunch s c) = total_mass_kg s := rfl
  have hlc : launch_cost (setLaunch s c) = c * total_mass_kg s := by
    rw [← hmass]; rfl
  unfold total_cost base_cost
  rw [hhw, hops, hnre, hlc]
  ring

end V2Grok

/-- C5: the v2 orbital total cost is strictly increasing in the
launch cost per kilogram, every other parameter held fixed. -/
theorem v2_orbital_total_cost_strict_mono (s : State) (c₁ c₂ : ℚ)
    (hyears : 0 < s.years) (htarget : 0 < s.targetGW)
    (hsat : 0 < s.satellitePowerKW) (hspec : 0 < s.specificPowerWPerKg)
    (hsun : 0 < s.sunFraction) (hcell : s.cellDegradation ≤ 100)
    (hgpu : s.gpuFailureRate ≤ 100) (hc : c₁ < c₂) :
    V2Grok.total_cost (V2Grok.setLaunch s c₁) < V2Grok.total_cost (V2Grok.setLaunch s c₂) := by
  have hp : (0 : ℚ) < s.satellitePowerKW * 1000 := by positivity
  have hreq := V2Grok.required_initial_power_w_pos s hyears htarget hcell hgpu hsun
  have hcount : 0 < V2Grok.satellite_count s :=
    Int.ceil_pos.mpr (div_pos hreq hp)
  have hcountQ : (0 : ℚ) < (V2Grok.satellite_count s : ℚ) := by exact_mod_cast hcount
  have hmassPerSat : (0 : ℚ) < V2Grok.mass_per_sat_kg s := by
    unfold V2Grok.mass_per_sat_kg
    positivity
  have hmass : (0 : ℚ) < V2Grok.total_mass_kg s := mul_pos hcountQ hmassPerSat
  rw [V2Grok.setLaunch_total_cost, V2Grok.setLaunch_total_cost]
  have := mul_lt_mul_of_pos_right hc hmass
  linarith

/-- C5 witness: strict monotonicity at the default state, between launch
costs 500 and 2000 dollars per kilogram. -/
theorem v2_orbital_total_cost_strict_mono_witness :
    0 < defaultState.years ∧ (500 : ℚ) < 2000 ∧
      V2Grok.total_cost (V2Grok.setLaunch defaultState 500) <
        V2Grok.total_cost (V2Grok.setLaunch defaultState 2000) :=
  ⟨by norm_num [defaultState], by norm_num,
    v2_orbital_total_cost_strict_mono defaultState 500 2000 (by norm_num [defaultState])
      (by norm_num [defaultState]) (by norm_num [defaultState]) (by norm_num [defaultState])
      (by norm_num [defaultState]) (by norm_num [defaultState]) (by norm_num [defaultState])
      (by norm_num)⟩

namespace TempAudit

/-!
`src/temp/formula_audit.py`, `audit_orbital`.  The script fixes its
parameters as module-level globals; the formulas are embedded here as
functions of the same `State` record (`nreCostMillions` is the `nreCost`
field).  This variant sizes the fleet from the solar-degradation factor
alone and books all five cost components, operations scaled by years.
-/

/-- `TARGET_POWER_MW = 1000`. -/
def TARGET_POWER_MW : ℚ := 1000

/-- `TARGET_POWER_W = TARGET_POWER_MW * 1e6`. -/
def TARGET_POWER_W : ℚ := TARGET_POWER_MW * 1e6

/-- `ORBITAL_OPS_FRAC = 0.01`. -/
def ORBITAL_OPS_FRAC : ℚ := 0.01

/-- `annualRetention = 1 - (cellDegradation / 100)`. -/
def annualRetention (s : State) : ℚ := 1 - s.cellDegradation / 100

/-- `capacitySum = sum(annualRetention ** year for year in range(years))`. -/
def capacitySum (s : State) : ℚ := ∑ y ∈ Finset.range s.years, annualRetention s ^ y

/-- `avgCapacityFactor = capacitySum / years`. -/
def avgCapacityFactor (s : State) : ℚ := capacitySum s / s.years

/-- `sunlightAdjustedFactor = avgCapacityFactor * sunFraction`. -/
def sunlightAdjustedFactor (s : State) : ℚ := avgCapacityFactor s * s.sunFraction

/-- `requiredInitialPowerW = TARGET_POWER_W / sunlightAdjustedFactor`. -/
def requiredInitialPowerW (s : State) : ℚ := TARGET_POWER_W / sunlightAdjustedFactor s

/-- `massPerSatelliteKg = (satellitePowerKW * 1000) / specificPowerWPerKg`. -/
def massPerSatelliteKg (s : State) : ℚ := s.satellitePowerKW * 1000 / s.specificPowerWPerKg

/-- `satelliteCount = math.ceil(requiredInitialPowerW / (satellitePowerKW * 1000))`. -/
def satelliteCount (s : State) : ℤ :=
  ⌈requiredInitialPowerW s / (s.satellitePowerKW * 1000)⌉

/-- `totalMassKg = satelliteCount * massPerSatelliteKg`. -/
def totalMassKg (s : State) : ℚ := satelliteCount s * massPerSatelliteKg s

/-- `actualInitialPowerW = satelliteCount * satellitePowerKW * 1000`. -/
def actualInitialPowerW (s : State) : ℚ := satelliteCount s * s.satellitePowerKW * 1000

/-- `hardwareCost = satelliteCostPerW * actualInitialPowerW`. -/
def hardwareCost (s : State) : ℚ := s.satelliteCostPerW * actualInitialPowerW s

/-- `launchCost = launchCostPerKg * totalMassKg`. -/
def launchCost (s : State) : ℚ := s.launchCostPerKg * totalMassKg s

/-- `baseCost = hardwareCost + launchCost`. -/
def baseCost (s : State) : ℚ := hardwareCost s + launchCost s

/-- `opsCost = hardwareCost * ORBITAL_OPS_FRAC * years`. -/
def opsCost (s : State) : ℚ := hardwareCost s * ORBITAL_OPS_FRAC * s.years

/-- `gpuReplacementCost = hardwareCost * (gpuFailureRate / 100) * years`. -/
def gpuReplacementCost (s : State) : ℚ := hardwareCost s * (s.gpuFailureRate / 100) * s.years

/-- `nreCost = nreCostMillions * 1e6`. -/
def nreCost (s : State) : ℚ := s.nreCost * 1e6

/-- `totalCost = baseCost + opsCost + gpuReplacementCost + nreCost`. -/
def totalCost (s : State) : ℚ := baseCost s + opsCost s + gpuReplacementCost s + nreCost s

end TempAudit

/-- C1: the orbital total cost is exactly the sum of the five named cost
components — hardware, launch, operations, accelerator replacement and
non-recurring engineering — none dropped, none counted twice.  (This is
the five-component variant of `src/temp/formula_audit.py`; the v2 grok
re-derivation accounts for accelerator failure in the fleet sizing
instead and books only the other four components.) -/
theorem orbital_total_cost_is_sum_of_five (s : State) :
    TempAudit.totalCost s =
      TempAudit.hardwareCost s + TempAudit.launchCost s + TempAudit.opsCost s +
        TempAudit.gpuReplacementCost s + TempAudit.nreCost s := by
  unfold TempAudit.totalCost TempAudit.baseCost
  ring

namespace Thermal

/-!
`src/audits/v2_grok_first_principles/06_thermal_calculations.py`,
`calculate_thermal_first_principles` (the same formulas appear in
`calculate_thermal` of `src/audits/v1_opus4.5/formula_audit.py`).  The
script derives `area_m2` from the orbital result and then uses it only
through these formulas, so the embedding takes the area as an argument.
-/

/-- `PHYSICS["SOLAR_IRRADIANCE_W_M2"]`. -/
noncomputable def SOLAR_IRRADIANCE_W_M2 : ℝ := 1361

/-- `PHYSICS["EARTH_IR_FLUX_W_M2"]`. -/
noncomputable def EARTH_IR_FLUX_W_M2 : ℝ := 237

/-- `PHYSICS["EARTH_ALBEDO"]`. -/
noncomputable def EARTH_ALBEDO : ℝ := 0.30

/-- `PHYSICS["T_SPACE_K"]`. -/
noncomputable def T_SPACE_K : ℝ := 3

/-- `PHYSICS["STEFAN_BOLTZMANN"]`. -/
noncomputable def STEFAN_BOLTZMANN : ℝ := 5.67e-8

/-- The thermal parameter subset of the state dictionary, over ℝ. -/
structure ThermalState where
  solarAbsorptivity : ℝ
  emissivityPV : ℝ
  emissivityRad : ℝ
  pvEfficiency : ℝ
  betaAngle : ℝ
  maxDieTempC : ℝ
  tempDropC : ℝ

/-- `vf_earth = 0.08 + (90 - beta_angle) * 0.002`. -/
noncomputable def vf_earth (t : ThermalState) : ℝ := 0.08 + (90 - t.betaAngle) * 0.002

/-- `power_generated = SOLAR_IRRADIANCE_W_M2 * pv_efficiency * area_m2`. -/
noncomputable def power_generated (t : ThermalState) (area : ℝ) : ℝ :=
  SOLAR_IRRADIANCE_W_M2 * t.pvEfficiency * area

/-- `q_absorbed_total = SOLAR_IRRADIANCE_W_M2 * alpha_pv * area_m2`. -/
noncomputable def q_absorbed_total (t : ThermalState) (area : ℝ) : ℝ :=
  SOLAR_IRRADIANCE_W_M2 * t.solarAbsorptivity * area

/-- `q_solar_waste = q_absorbed_total - power_generated`. -/
noncomputable def q_solar_waste (t : ThermalState) (area : ℝ) : ℝ :=
  q_absorbed_total t area - power_generated t area

/-- `q_earth_ir = (EARTH_IR_FLUX_W_M2 * vf_earth) * (epsilon_pv + epsilon_rad) * area_m2`. -/
noncomputable def q_earth_ir (t : ThermalState) (area : ℝ) : ℝ :=
  (EARTH_IR_FLUX_W_M2 * vf_earth t) * (t.emissivityPV + t.emissivityRad) * area

/-- `albedo_scaling = math.cos(beta_angle * math.pi / 180)`. -/
noncomputable def albedo_scaling (t : ThermalState) : ℝ :=
  Real.cos (t.betaAngle * Real.pi / 180)

/-- `q_albedo = (SOLAR_IRRADIANCE_W_M2 * EARTH_ALBEDO * vf_earth * albedo_scaling) * alpha_pv * area_m2`. -/
noncomputable def q_albedo (t : ThermalState) (area : ℝ) : ℝ :=
  (SOLAR_IRRADIANCE_W_M2 * EARTH_ALBEDO * vf_earth t * albedo_scaling t) *
    t.solarAbsorptivity * area

/-- `q_heat_loop = power_generated`. -/
noncomputable def q_heat_loop (t : ThermalState) (area : ℝ) : ℝ := power_generated t area

/-- `total_heat_in = q_solar_waste + q_earth_ir + q_albedo + q_heat_loop`. -/
noncomputable def total_heat_in (t : ThermalState) (area : ℝ) : ℝ :=
  q_solar_waste t area + q_earth_ir t area + q_albedo t area + q_heat_loop t area

/-- `total_emissivity = epsilon_pv + epsilon_rad`. -/
noncomputable def total_emissivity (t : ThermalState) : ℝ := t.emissivityPV + t.emissivityRad

/-- `eq_temp_k = ((total_heat_in / (sigma * area_m2 * total_emissivity)) + space_temp_k**4) ** 0.25`. -/
noncomputable def eq_temp_k (t : ThermalState) (area : ℝ) : ℝ :=
  (total_heat_in t area / (STEFAN_BOLTZMANN * area * total_emissivity t) +
    T_SPACE_K ^ (4 : ℕ)) ^ (0.25 : ℝ)

/-- `eq_temp_c = eq_temp_k - 273.15`. -/
noncomputable def eq_temp_c (t : ThermalState) (area : ℝ) : ℝ := eq_temp_k t area - 273.15

/-- `radiator_temp_c = maxDieTempC - tempDropC`. -/
noncomputable def radiator_temp_c (t : ThermalState) : ℝ := t.maxDieTempC - t.tempDropC

/-- `temp_margin_c = radiator_temp_c - eq_temp_c`. -/
noncomputable def temp_margin_c (t : ThermalState) (area : ℝ) : ℝ :=
  radiator_temp_c t - eq_temp_c t area

/-- `area_sufficient = eq_temp_c <= radiator_temp_c`. -/
def area_sufficient (t : ThermalState) (area : ℝ) : Prop :=
  eq_temp_c t area ≤ radiator_temp_c t

lemma total_heat_in_linear (t : ThermalState) (area : ℝ) :
    total_heat_in t area = area * total_heat_in t 1 := by
  simp only [total_heat_in, q_solar_waste, q_absorbed_total, power_generated, q_earth_ir,
    q_albedo, q_heat_loop]
  ring

end Thermal

/-- C6: the thermal heat input is exactly the sum
solar-waste + Earth-IR + albedo + heat-loop-return, and equals
absorbed-solar + Earth-IR + albedo, because the heat-loop return is the
generated electrical power and the solar waste is absorbed minus generated. -/
theorem thermal_total_heat_in_balance (t : Thermal.ThermalState) (area : ℝ) :
    Thermal.total_heat_in t area =
        Thermal.q_solar_waste t area + Thermal.q_earth_ir t area +
          Thermal.q_albedo t area + Thermal.q_heat_loop t area ∧
      Thermal.q_heat_loop t area = Thermal.power_generated t area ∧
      Thermal.q_solar_waste t area =
        Thermal.q_absorbed_total t area - Thermal.power_generated t area ∧
      Thermal.total_heat_in t area =
        Thermal.q_absorbed_total t area + Thermal.q_earth_ir t area +
          Thermal.q_albedo t area := by
  refine ⟨rfl, rfl, rfl, ?_⟩
  unfold Thermal.total_heat_in Thermal.q_solar_waste Thermal.q_heat_loop
  ring

/-- C10: the equilibrium temperature, the temperature margin and the
area-sufficiency flag of the thermal model do not depend on the array area:
every heat-input term is proportional to the area, which cancels against
the area in the radiative denominator. -/
theorem thermal_eq_temp_area_independent (t : Thermal.ThermalState) (a₁ a₂ : ℝ)
    (h₁ : 0 < a₁) (h₂ : 0 < a₂) :
    Thermal.total_heat_in t a₁ /
          (Thermal.STEFAN_BOLTZMANN * a₁ * Thermal.total_emissivity t) =
        Thermal.total_heat_in t a₂ /
          (Thermal.STEFAN_BOLTZMANN * a₂ * Thermal.total_emissivity t) ∧
      Thermal.eq_temp_k t a₁ = Thermal.eq_temp_k t a₂ ∧
      Thermal.temp_margin_c t a₁ = Thermal.temp_margin_c t a₂ ∧
      (Thermal.area_sufficient t a₁ ↔ Thermal.area_sufficient t a₂) := by
  have key : ∀ a : ℝ, 0 < a →
      Thermal.total_heat_in t a /
          (Thermal.STEFAN_BOLTZMANN * a * Thermal.total_emissivity t) =
        Thermal.total_heat_in t 1 /
          (Thermal.STEFAN_BOLTZMANN * Thermal.total_emissivity t) := by
    intro a ha
    rw [Thermal.total_heat_in_linear,
      show Thermal.STEFAN_BOLTZMANN * a * Thermal.total_emissivity t =
        a * (Thermal.STEFAN_BOLTZMANN * Thermal.total_emissivity t) by ring]
    exact mul_div_mul_left _ _ (ne_of_gt ha)
  have hratio := (key a₁ h₁).trans (key a₂ h₂).symm
  have htemp : Thermal.eq_temp_k t a₁ = Thermal.eq_temp_k t a₂ := by
    unfold Thermal.eq_temp_k
    rw [hratio]
  refine ⟨hratio, htemp, ?_, ?_⟩
  · unfold Thermal.temp_margin_c Thermal.eq_temp_c
    rw [htemp]
  · unfold Thermal.area_sufficient Thermal.eq_temp_c
    rw [htemp]

/-- C10 witness: at the default thermal parameters the equilibrium
temperature, margin and sufficiency flag agree between areas 1 m² and 2 m². -/
theorem thermal_eq_temp_area_independent_witness :
    (0 : ℝ) < 1 ∧ (0 : ℝ) < 2 ∧
      (Thermal.eq_temp_k ⟨0.92, 0.85, 0.90, 0.22, 90, 85, 10⟩ 1 =
          Thermal.eq_temp_k ⟨0.92, 0.85, 0.90, 0.22, 90, 85, 10⟩ 2 ∧
        Thermal.temp_margin_c ⟨0.92, 0.85, 0.90, 0.22, 90, 85, 10⟩ 1 =
          Thermal.temp_margin_c ⟨0.92, 0.85, 0.90, 0.22, 90, 85, 10⟩ 2 ∧
        (Thermal.area_sufficient ⟨0.92, 0.85, 0.90, 0.22, 90, 85, 10⟩ 1 ↔
          Thermal.area_sufficient ⟨0.92, 0.85, 0.90, 0.22, 90, 85, 10⟩ 2)) :=
  ⟨one_pos, two_pos,
    (thermal_eq_temp_area_independent ⟨0.92, 0.85, 0.90, 0.22, 90, 85, 10⟩ 1 2
      one_pos two_pos).2⟩

namespace ViewFactor

/-!
`src/audits/audit_opus45/view_factor_analysis.py`, geometric model.
-/

/-- `EARTH_RADIUS_KM = 6371.0`. -/
noncomputable def EARTH_RADIUS_KM : ℝ := 6371

/-- `earth_angular_radius(altitude_km) = asin(EARTH_RADIUS_KM / (EARTH_RADIUS_KM + altitude_km))`. -/
noncomputable def earth_angular_radius (altitude_km : ℝ) : ℝ :=
  Real.arcsin (EARTH_RADIUS_KM / (EARTH_RADIUS_KM + altitude_km))

/-- `nadir_view_factor(altitude_km) = sin(earth_angular_radius(altitude_km)) ** 2`. -/
noncomputable def nadir_view_factor (altitude_km : ℝ) : ℝ :=
  Real.sin (earth_angular_radius altitude_km) ^ 2

open scoped Classical in
/-- `tilted_plate_view_factor(altitude_km, tilt_angle_rad)`: the cosine-tilt
scaling with the five-percent floor when the plate faces away. -/
noncomputable def tilted_plate_view_factor (altitude_km tilt_angle_rad : ℝ) : ℝ :=
  if Real.cos tilt_angle_rad ≤ 0 then nadir_view_factor altitude_km * 0.05
  else nadir_view_factor altitude_km * Real.cos tilt_angle_rad

lemma nadir_view_factor_eq (h : ℝ) (hh : 0 ≤ h) :
    nadir_view_factor h = (EARTH_RADIUS_KM / (EARTH_RADIUS_KM + h)) ^ 2 := by
  have hR : (0 : ℝ) < EARTH_RADIUS_KM := by norm_num [EARTH_RADIUS_KM]
  have hden : (0 : ℝ) < EARTH_RADIUS_KM + h := by linarith
  have hx1 : EARTH_RADIUS_KM / (EARTH_RADIUS_KM + h) ≤ 1 := by
    rw [div_le_one hden]; linarith
  have hx0 : (-1 : ℝ) ≤ EARTH_RADIUS_KM / (EARTH_RADIUS_KM + h) := by
    have := div_nonneg hR.le hden.le
    linarith
  unfold nadir_view_factor earth_angular_radius
  rw [Real.sin_arcsin hx0 hx1]

end ViewFactor

/-- C9: for every positive altitude the view factor of a flat plate at zero
tilt equals sin² of Earth's angular radius arcsin(Re/(Re+h)) exactly, and
the nadir view factor tends to 1 as the altitude tends to 0 from above. -/
theorem view_factor_round_trip (h : ℝ) (hpos : 0 < h) :
    ViewFactor.tilted_plate_view_factor h 0 =
        Real.sin (ViewFactor.earth_angular_radius h) ^ 2 ∧
      Filter.Tendsto ViewFactor.nadir_view_factor (nhdsWithin 0 (Set.Ioi 0)) (nhds 1) := by
  constructor
  · unfold ViewFactor.tilted_plate_view_factor
    rw [Real.cos_zero, if_neg (by norm_num), mul_one]
    rfl
  · have hR : (0 : ℝ) < ViewFactor.EARTH_RADIUS_KM := by norm_num [ViewFactor.EARTH_RADIUS_KM]
    have hden : Filter.Tendsto (fun x : ℝ => ViewFactor.EARTH_RADIUS_KM + x)
        (nhds 0) (nhds ViewFactor.EARTH_RADIUS_KM) := by
      simpa using (tendsto_const_nhds.add Filter.tendsto_id :
        Filter.Tendsto (fun x : ℝ => ViewFactor.EARTH_RADIUS_KM + x)
          (nhds 0) (nhds (ViewFactor.EARTH_RADIUS_KM + 0)))
    have hfrac : Filter.Tendsto
        (fun x : ℝ => ViewFactor.EARTH_RADIUS_KM / (ViewFactor.EARTH_RADIUS_KM + x))
        (nhds 0) (nhds 1) := by
      have := Filter.Tendsto.div
        (tendsto_const_nhds (x := ViewFactor.EARTH_RADIUS_KM) (f := nhds (0 : ℝ)))
        hden (ne_of_gt hR)
      simpa [div_self (ne_of_gt hR)] using this
    have hsq : Filter.Tendsto
        (fun x : ℝ => (ViewFactor.EARTH_RADIUS_KM / (ViewFactor.EARTH_RADIUS_KM + x)) ^ 2)
        (nhds 0) (nhds 1) := by
      simpa using hfrac.pow 2
    have hev : (fun x : ℝ =>
        (ViewFactor.EARTH_RADIUS_KM / (ViewFactor.EARTH_RADIUS_KM + x)) ^ 2) =ᶠ[nhdsWithin 0 (Set.Ioi 0)]
        ViewFactor.nadir_view_factor := by
      filter_upwards [self_mem_nhdsWithin] with x hx
      exact (ViewFactor.nadir_view_factor_eq x (le_of_lt hx)).symm
    exact Filter.Tendsto.congr' hev (hsq.mono_left nhdsWithin_le_nhds)

/-- C9 witness: the round trip at 550 km (the reference Starlink altitude). -/
theorem view_factor_round_trip_witness :
    (0 : ℝ) < 550 ∧
      (ViewFactor.tilted_plate_view_factor 550 0 =
          Real.sin (ViewFactor.earth_angular_radius 550) ^ 2 ∧
        Filter.Tendsto ViewFactor.nadir_view_factor (nhdsWithin 0 (Set.Ioi 0)) (nhds 1)) :=
  ⟨by norm_num, view_factor_round_trip 550 (by norm_num)⟩

namespace V1Audit

/-!
`src/audits/v1_opus4.5/formula_audit.py`: `calculate_orbital`,
`calculate_terrestrial`, and the binary-search loop of
`calculate_breakeven_scenarios`.  This orbital variant sizes the fleet
from the solar-degradation factor alone, and books a GPU-replacement
cost next to a flat (per-model-run) one-percent operations cost.
-/

/-- `CONSTANTS["HOURS_PER_YEAR"]`. -/
def HOURS_PER_YEAR : ℚ := 8760

/-- `target_power_mw = targetGW * 1000`. -/
def target_power_mw (s : State) : ℚ := s.targetGW * 1000

/-- `target_power_w = target_power_mw * 1e6`. -/
def target_power_w (s : State) : ℚ := target_power_mw s * 1e6

/-- `total_hours = years * HOURS_PER_YEAR`. -/
def total_hours (s : State) : ℚ := s.years * HOURS_PER_YEAR

/-- `annual_retention = 1 - (cellDegradation / 100)`. -/
def annual_retention (s : State) : ℚ := 1 - s.cellDegradation / 100

/-- The loop `for year in range(years): capacity_sum += annual_retention ** year`. -/
def capacity_sum (s : State) : ℚ := ∑ y ∈ Finset.range s.years, annual_retention s ^ y

/-- `avg_capacity_factor = capacity_sum / years`. -/
def avg_capacity_factor (s : State) : ℚ := capacity_sum s / s.years

/-- `sunlight_adjusted_factor = avg_capacity_factor * sunFraction`. -/
def sunlight_adjusted_factor (s : State) : ℚ := avg_capacity_factor s * s.sunFraction

/-- `required_initial_power_w = target_power_w / sunlight_adjusted_factor`. -/
def required_initial_power_w (s : State) : ℚ := target_power_w s / sunlight_adjusted_factor s

/-- `mass_per_satellite_kg = (satellitePowerKW * 1000) / specificPowerWPerKg`. -/
def mass_per_satellite_kg (s : State) : ℚ := s.satellitePowerKW * 1000 / s.specificPowerWPerKg

/-- `satellite_count = math.ceil(required_initial_power_w / (satellitePowerKW * 1000))`. -/
def satellite_count (s : State) : ℤ :=
  ⌈required_initial_power_w s / (s.satellitePowerKW * 1000)⌉

/-- `total_mass_kg = satellite_count * mass_per_satellite_kg`. -/
def total_mass_kg (s : State) : ℚ := satellite_count s * mass_per_satellite_kg s

/-- `actual_initial_power_w = satellite_count * satellitePowerKW * 1000`. -/
def actual_initial_power_w (s : State) : ℚ := satellite_count s * s.satellitePowerKW * 1000

/-- `hardware_cost = satelliteCostPerW * actual_initial_power_w`. -/
def hardware_cost (s : State) : ℚ := s.satelliteCostPerW * actual_initial_power_w s

/-- `launch_cost = launchCostPerKg * total_mass_kg`. -/
def launch_cost (s : State) : ℚ := s.launchCostPerKg * total_mass_kg s

/-- `ops_cost = hardware_cost * 0.01` (note: not scaled by years in this variant). -/
def ops_cost (s : State) : ℚ := hardware_cost s * 0.01

/-- `gpu_replacement_cost = hardware_cost * (gpuFailureRate / 100) * years`. -/
def gpu_replacement_cost (s : State) : ℚ :=
  hardware_cost s * (s.gpuFailureRate / 100) * s.years

/-- `nre_cost = nreCost * 1e6`. -/
def nre_cost (s : State) : ℚ := s.nreCost * 1e6

/-- `total_cost = (hardware_cost + launch_cost) + ops_cost + gpu_replacement_cost + nre_cost`. -/
def total_cost (s : State) : ℚ :=
  (hardware_cost s + launch_cost s) + ops_cost s + gpu_replacement_cost s + nre_cost s

/-- `cost_per_w = total_cost / target_power_w`. -/
def cost_per_w (s : State) : ℚ := total_cost s / target_power_w s

/-- `power_gen_cost_per_w = gasTurbineCapexPerKW * pue / 1000`. -/
def power_gen_cost_per_w (s : State) : ℚ := s.gasTurbineCapexPerKW * s.pue / 1000

/-- `infra_capex`: the five capital buckets, each per-watt cost times the
target power in watts. -/
def infra_capex (s : State) : ℚ :=
  power_gen_cost_per_w s * target_power_w s + s.electricalCostPerW * target_power_w s +
    s.mechanicalCostPerW * target_power_w s + s.civilCostPerW * target_power_w s +
    s.networkCostPerW * target_power_w s

/-- `energy_mwh = target_power_mw * total_hours * capacityFactor`. -/
def energy_mwh (s : State) : ℚ := target_power_mw s * total_hours s * s.capacityFactor

/-- `generation_mwh = energy_mwh * pue`. -/
def generation_mwh (s : State) : ℚ := energy_mwh s * s.pue

/-- `fuel_cost_per_mwh = heatRateBtuKwh * gasPricePerMMBtu / 1000`. -/
def fuel_cost_per_mwh (s : State) : ℚ := s.heatRateBtuKwh * s.gasPricePerMMBtu / 1000

/-- `fuel_cost_total = fuel_cost_per_mwh * generation_mwh`. -/
def fuel_cost_total (s : State) : ℚ := fuel_cost_per_mwh s * generation_mwh s

/-- Terrestrial `total_cost = infra_capex + fuel_cost_total`. -/
def terr_total_cost (s : State) : ℚ := infra_capex s + fuel_cost_total s

/-- Terrestrial `cost_per_w = total_cost / target_power_w`. -/
def terr_cost_per_w (s : State) : ℚ := terr_total_cost s / target_power_w s

/-- The state with a replaced launch cost (`state["launchCostPerKg"] = mid`). -/
def setLaunch (s : State) (c : ℚ) : State := { s with launchCostPerKg := c }

/-- The comparison driving the bisection:
`orbital["costPerW"] > terr_cost_per_w` at launch cost `c`. -/
def breakeven_test (s : State) (c : ℚ) : Bool :=
  decide (terr_cost_per_w s < cost_per_w (setLaunch s c))

/-- One iteration of the loop body: `mid = (low + high) / 2`, then
`high = mid` when the orbital cost exceeds the terrestrial one and
`low = mid` otherwise. -/
def bisectStep (f : ℚ → Bool) (p : ℚ × ℚ) : ℚ × ℚ :=
  if f ((p.1 + p.2) / 2) then (p.1, (p.1 + p.2) / 2) else ((p.1 + p.2) / 2, p.2)

/-- The loop `while high - low > 1`, with an explicit iteration budget.
The guard only depends on the interval width, which halves each pass, so
from the interval (0, 10000) the loop is over after exactly fourteen
passes; `bisect_loop_terminates_in_14` below shows a budget of fourteen
already computes the loop's limit. -/
def bisectAux (f : ℚ → Bool) : ℕ → ℚ × ℚ → ℚ × ℚ
  | 0, p => p
  | n + 1, p => if 1 < p.2 - p.1 then bisectAux f n (bisectStep f p) else p

/-- `low, high = 0, 10000`; run the loop; `breakeven_launch = (low + high) / 2`. -/
def breakeven_launch (s : State) : ℚ :=
  ((bisectAux (breakeven_test s) 14 (0, 10000)).1 +
    (bisectAux (breakeven_test s) 14 (0, 10000)).2) / 2

lemma bisectStep_width (f : ℚ → Bool) (p : ℚ × ℚ) :
    (bisectStep f p).2 - (bisectStep f p).1 = (p.2 - p.1) / 2 := by
  unfold bisectStep
  split <;> simp <;> ring

lemma bisectAux_width (f : ℚ → Bool) :
    ∀ (n : ℕ) (p : ℚ × ℚ), (2 : ℚ) ^ n < 2 * (p.2 - p.1) →
      (bisectAux f n p).2 - (bisectAux f n p).1 = (p.2 - p.1) / 2 ^ n := by
  intro n
  induction n with
  | zero => intro p _; simp [bisectAux]
  | succ n ih =>
    intro p hp
    have h2n : (1 : ℚ) ≤ 2 ^ n := by
      simpa using pow_le_pow_left₀ (by norm_num) (by norm_num : (1 : ℚ) ≤ 2) n
    have hw : 1 < p.2 - p.1 := by
      have : (2 : ℚ) ^ (n + 1) = 2 * 2 ^ n := by ring
      nlinarith
    unfold bisectAux
    rw [if_pos hw]
    have hcond : (2 : ℚ) ^ n < 2 * ((bisectStep f p).2 - (bisectStep f p).1) := by
      rw [bisectStep_width]
      have : (2 : ℚ) ^ (n + 1) = 2 * 2 ^ n := by ring
      nlinarith
    rw [ih (bisectStep f p) hcond, bisectStep_width, div_div, pow_succ]
    ring_nf

lemma bisectAux_stop (f : ℚ → Bool) (n : ℕ) (p : ℚ × ℚ) (h : ¬ 1 < p.2 - p.1) :
    bisectAux f n p = p := by
  cases n with
  | zero => rfl
  | succ n => unfold bisectAux; rw [if_neg h]

lemma bisectAux_add (f : ℚ → Bool) :
    ∀ (n k : ℕ) (p : ℚ × ℚ),
      bisectAux f (n + k) p = bisectAux f k (bisectAux f n p) := by
  intro n
  induction n with
  | zero => intro k p; rw [Nat.zero_add]; rfl
  | succ n ih =>
    intro k p
    by_cases hw : 1 < p.2 - p.1
    · have hsucc : n + 1 + k = (n + k) + 1 := by omega
      rw [hsucc]
      show (if 1 < p.2 - p.1 then bisectAux f (n + k) (bisectStep f p) else p) = _
      rw [if_pos hw, ih k (bisectStep f p)]
      congr 1
      show _ = (if 1 < p.2 - p.1 then bisectAux f n (bisectStep f p) else p)
      rw [if_pos hw]
    · rw [bisectAux_stop f (n + 1 + k) p hw, bisectAux_stop f (n + 1) p hw,
        bisectAux_stop f k p hw]

/-- The loop invariant of the bisection: an ordered interval whose left end
fails the test and whose right end passes it. -/
def BisectInv (f : ℚ → Bool) (p : ℚ × ℚ) : Prop :=
  p.1 ≤ p.2 ∧ f p.1 = false ∧ f p.2 = true

lemma bisectStep_inv (f : ℚ → Bool) (p : ℚ × ℚ) (h : BisectInv f p) :
    BisectInv f (bisectStep f p) := by
  obtain ⟨hle, hlo, hhi⟩ := h
  unfold bisectStep
  split
  case isTrue hmid => exact ⟨by dsimp; linarith, hlo, hmid⟩
  case isFalse hmid =>
    have hmid' : f ((p.1 + p.2) / 2) = false := by
      simpa using hmid
    exact ⟨by dsimp; linarith, hmid', hhi⟩

lemma bisectAux_inv (f : ℚ → Bool) :
    ∀ (n : ℕ) (p : ℚ × ℚ), BisectInv f p → BisectInv f (bisectAux f n p) := by
  intro n
  induction n with
  | zero => intro p h; exact h
  | succ n ih =>
    intro p h
    unfold bisectAux
    split
    · exact ih _ (bisectStep_inv f p h)
    · exact h

end V1Audit

/-- C8: the breakeven bisection loop over (0, 10000) with tolerance 1
terminates after exactly fourteen halvings, for every parameter set: running
it with any budget beyond fourteen returns the fourteen-step result, the
interval width after fourteen steps is below the tolerance, and after
thirteen steps it is still above it. -/
theorem breakeven_bisection_terminates_in_14 (s : State) (k : ℕ) :
    V1Audit.bisectAux (V1Audit.breakeven_test s) (14 + k) (0, 10000) =
        V1Audit.bisectAux (V1Audit.breakeven_test s) 14 (0, 10000) ∧
      (V1Audit.bisectAux (V1Audit.breakeven_test s) 14 (0, 10000)).2 -
          (V1Audit.bisectAux (V1Audit.breakeven_test s) 14 (0, 10000)).1 ≤ 1 ∧
      1 < (V1Audit.bisectAux (V1Audit.breakeven_test s) 13 (0, 10000)).2 -
          (V1Audit.bisectAux (V1Audit.breakeven_test s) 13 (0, 10000)).1 := by
  have h14 := V1Audit.bisectAux_width (V1Audit.breakeven_test s) 14 ((0 : ℚ), (10000 : ℚ))
    (by norm_num)
  have h13 := V1Audit.bisectAux_width (V1Audit.breakeven_test s) 13 ((0 : ℚ), (10000 : ℚ))
    (by norm_num)
  have hw14 : (V1Audit.bisectAux (V1Audit.breakeven_test s) 14 (0, 10000)).2 -
      (V1Audit.bisectAux (V1Audit.breakeven_test s) 14 (0, 10000)).1 = 625 / 1024 := by
    rw [h14]; norm_num
  refine ⟨?_, by rw [hw14]; norm_num, by rw [h13]; norm_num⟩
  rw [V1Audit.bisectAux_add (V1Audit.breakeven_test s) 14 k (0, 10000)]
  exact V1Audit.bisectAux_stop _ k _ (by rw [hw14]; norm_num)

namespace V1Audit

lemma cost_per_w_setLaunch (s : State) (c : ℚ) :
    cost_per_w (setLaunch s c) =
      (hardware_cost s + ops_cost s + gpu_replacement_cost s + nre_cost s) / target_power_w s +
        total_mass_kg s / target_power_w s * c := by
  have htot : total_cost (setLaunch s c) =
      (hardware_cost s + ops_cost s + gpu_replacement_cost s + nre_cost s) +
        total_mass_kg s * c := by
    have : total_cost (setLaunch s c) =
        (hardware_cost s + c * total_mass_kg s) + ops_cost s + gpu_replacement_cost s +
          nre_cost s := rfl
    rw [this]; ring
  show total_cost (setLaunch s c) / target_power_w s = _
  rw [htot, add_div, mul_div_right_comm]

lemma avg_ratio_ge (n : ℕ) (h3 : 3 ≤ n) (h10 : n ≤ 10) :
    (3 / 5 : ℚ) ≤ (∑ y ∈ Finset.range n, (22 / 25 : ℚ) ^ y) / n := by
  interval_cases n <;> · simp [Finset.sum_range_succ]; norm_num

lemma avg_capacity_factor_ge (s : State) (h3 : 3 ≤ s.years) (h10 : s.years ≤ 10)
    (hd0 : 0 ≤ s.cellDegradation) (hd : s.cellDegradation ≤ 12) :
    (3 / 5 : ℚ) ≤ avg_capacity_factor s := by
  have hy : (0 : ℚ) < s.years := by
    have : (3 : ℚ) ≤ s.years := by exact_mod_cast h3
    linarith
  have hr : (22 / 25 : ℚ) ≤ annual_retention s := by
    unfold annual_retention; linarith
  have hsum : (∑ y ∈ Finset.range s.years, (22 / 25 : ℚ) ^ y) ≤ capacity_sum s := by
    unfold capacity_sum
    exact Finset.sum_le_sum fun i _ => pow_le_pow_left₀ (by norm_num) hr i
  calc (3 / 5 : ℚ) ≤ (∑ y ∈ Finset.range s.years, (22 / 25 : ℚ) ^ y) / s.years :=
        avg_ratio_ge s.years h3 h10
    _ ≤ capacity_sum s / s.years := by gcongr
    _ = avg_capacity_factor s := rfl

end V1Audit

/-- The documented valid slider ranges (`SLIDER_RANGES` of
`src/audits/v1_opus4.5/formula_audit.py`, from `main.js`) for the fields
that the orbital, terrestrial and breakeven formulas read. -/
def ValidState (s : State) : Prop :=
  (1 ≤ s.targetGW ∧ s.targetGW ≤ 1000) ∧
    (3 ≤ s.years ∧ s.years ≤ 10) ∧
    (20 ≤ s.launchCostPerKg ∧ s.launchCostPerKg ≤ 2940) ∧
    (5 ≤ s.satelliteCostPerW ∧ s.satelliteCostPerW ≤ 40) ∧
    (3 ≤ s.specificPowerWPerKg ∧ s.specificPowerWPerKg ≤ 75) ∧
    (5 ≤ s.satellitePowerKW ∧ s.satellitePowerKW ≤ 130) ∧
    (0.55 ≤ s.sunFraction ∧ s.sunFraction ≤ 1) ∧
    (0 ≤ s.cellDegradation ∧ s.cellDegradation ≤ 12) ∧
    (0 ≤ s.gpuFailureRate ∧ s.gpuFailureRate ≤ 10) ∧
    (0 ≤ s.nreCost ∧ s.nreCost ≤ 10000) ∧
    (1450 ≤ s.gasTurbineCapexPerKW ∧ s.gasTurbineCapexPerKW ≤ 2300) ∧
    (6000 ≤ s.heatRateBtuKwh ∧ s.heatRateBtuKwh ≤ 9000) ∧
    (2 ≤ s.gasPricePerMMBtu ∧ s.gasPricePerMMBtu ≤ 15) ∧
    (1.1 ≤ s.pue ∧ s.pue ≤ 1.5)

namespace V1Audit

lemma slope_bounds (s : State) (hv : ValidState s) :
    0 ≤ total_mass_kg s / target_power_w s ∧
      total_mass_kg s / target_power_w s ≤ 8 / 5 := by
  obtain ⟨⟨hGW1, _⟩, ⟨hy3, hy10⟩, _, _, ⟨hsp3, _⟩, ⟨hkw5, hkw130⟩, ⟨hsun55, _⟩,
    ⟨hcd0, hcd12⟩, _, _, _, _, _, _⟩ := hv
  have hW : (1000000000 : ℚ) ≤ target_power_w s := by
    unfold target_power_w target_power_mw
    nlinarith
  have hWpos : (0 : ℚ) < target_power_w s := by linarith
  have havg := avg_capacity_factor_ge s hy3 hy10 hcd0 hcd12
  have hadj : (33 / 100 : ℚ) ≤ sunlight_adjusted_factor s := by
    unfold sunlight_adjusted_factor
    nlinarith
  have hadjpos : (0 : ℚ) < sunlight_adjusted_factor s := by linarith
  have hreqpos : 0 < required_initial_power_w s := div_pos (by linarith) hadjpos
  have hreq : required_initial_power_w s ≤ 100 / 33 * target_power_w s := by
    unfold required_initial_power_w
    rw [div_le_iff₀ hadjpos]
    nlinarith
  have hppos : (0 : ℚ) < s.satellitePowerKW * 1000 := by linarith
  have hspecpos : (0 : ℚ) < s.specificPowerWPerKg := by linarith
  have hcount_lt : (satellite_count s : ℚ) <
      required_initial_power_w s / (s.satellitePowerKW * 1000) + 1 :=
    Int.ceil_lt_add_one _
  have hcount_nonneg : (0 : ℚ) ≤ (satellite_count s : ℚ) := by
    have : 0 < satellite_count s := Int.ceil_pos.mpr (div_pos hreqpos hppos)
    exact_mod_cast this.le
  have hms_pos : 0 < mass_per_satellite_kg s := div_pos hppos hspecpos
  have hmass_le : total_mass_kg s ≤
      (required_initial_power_w s / (s.satellitePowerKW * 1000) + 1) *
        mass_per_satellite_kg s :=
    mul_le_mul_of_nonneg_right hcount_lt.le hms_pos.le
  have hexp : (required_initial_power_w s / (s.satellitePowerKW * 1000) + 1) *
      mass_per_satellite_kg s =
        required_initial_power_w s / s.specificPowerWPerKg +
          s.satellitePowerKW * 1000 / s.specificPowerWPerKg := by
    unfold mass_per_satellite_kg
    field_simp
  have hterm1 : required_initial_power_w s / s.specificPowerWPerKg ≤
      100 / 33 * target_power_w s / 3 :=
    div_le_div₀ (by positivity) hreq (by norm_num) hsp3
  have hterm2 : s.satellitePowerKW * 1000 / s.specificPowerWPerKg ≤ 130000 / 3 :=
    div_le_div₀ (by norm_num) (by linarith) (by norm_num) hsp3
  constructor
  · exact div_nonneg (mul_nonneg hcount_nonneg hms_pos.le) hWpos.le
  · rw [div_le_iff₀ hWpos]
    have : total_mass_kg s ≤ 100 / 33 * target_power_w s / 3 + 130000 / 3 := by
      rw [hexp] at hmass_le
      linarith
    linarith

end V1Audit

/-- C7: whenever the breakeven point is bracketed by the search interval
(zero launch cost puts orbital at or below terrestrial, 10000 $/kg above
it), substituting the bisection result back into the orbital model as the
launch cost gives a cost per watt within the loop's convergence tolerance
(the width-1 stopping rule) of the terrestrial cost per watt. -/
theorem breakeven_feedback_within_tolerance (s : State) (hv : ValidState s)
    (h0 : V1Audit.cost_per_w (V1Audit.setLaunch s 0) ≤ V1Audit.terr_cost_per_w s)
    (h1 : V1Audit.terr_cost_per_w s < V1Audit.cost_per_w (V1Audit.setLaunch s 10000)) :
    |V1Audit.cost_per_w (V1Audit.setLaunch s (V1Audit.breakeven_launch s)) -
      V1Audit.terr_cost_per_w s| ≤ 1 := by
  obtain ⟨hS0, hS85⟩ := V1Audit.slope_bounds s hv
  set S := V1Audit.total_mass_kg s / V1Audit.target_power_w s with hSdef
  set A := (V1Audit.hardware_cost s + V1Audit.ops_cost s + V1Audit.gpu_replacement_cost s +
    V1Audit.nre_cost s) / V1Audit.target_power_w s with hAdef
  set T := V1Audit.terr_cost_per_w s with hTdef
  have haff : ∀ c : ℚ, V1Audit.cost_per_w (V1Audit.setLaunch s c) = A + S * c :=
    fun c => V1Audit.cost_per_w_setLaunch s c
  have hf0 : V1Audit.breakeven_test s 0 = false := by
    apply decide_eq_false
    exact not_lt.mpr h0
  have hf1 : V1Audit.breakeven_test s 10000 = true := decide_eq_true h1
  have hInv0 : V1Audit.BisectInv (V1Audit.breakeven_test s) (0, 10000) :=
    ⟨by norm_num, hf0, hf1⟩
  have hInv := V1Audit.bisectAux_inv (V1Audit.breakeven_test s) 14 (0, 10000) hInv0
  set q := V1Audit.bisectAux (V1Audit.breakeven_test s) 14 (0, 10000) with hqdef
  obtain ⟨hq12, hqlo, hqhi⟩ := hInv
  have hwidth : q.2 - q.1 = 625 / 1024 := by
    rw [hqdef, V1Audit.bisectAux_width (V1Audit.breakeven_test s) 14 ((0 : ℚ), (10000 : ℚ))
      (by norm_num)]
    norm_num
  have hlo : A + S * q.1 ≤ T := by
    have hnot : ¬ (T < V1Audit.cost_per_w (V1Audit.setLaunch s q.1)) :=
      of_decide_eq_false hqlo
    rw [haff q.1] at hnot
    exact not_lt.mp hnot
  have hhi : T < A + S * q.2 := by
    have := of_decide_eq_true hqhi
    rwa [haff q.2] at this
  have hb : V1Audit.breakeven_launch s = (q.1 + q.2) / 2 := rfl
  rw [hb, haff ((q.1 + q.2) / 2)]
  have e1 : S * ((q.1 + q.2) / 2) = (S * q.1 + S * q.2) / 2 := by ring
  have e2 : S * q.2 - S * q.1 = S * (q.2 - q.1) := by ring
  have e3 : S * (q.2 - q.1) = S * (625 / 1024) := by rw [hwidth]
  have e4 : S * (625 / 1024) ≤ 8 / 5 * (625 / 1024) :=
    mul_le_mul_of_nonneg_right hS85 (by norm_num)
  have e5 : 0 ≤ S * (q.2 - q.1) := mul_nonneg hS0 (by linarith)
  rw [e1]
  rw [abs_le]
  constructor <;> nlinarith [hlo, hhi, e2, e3, e4, e5]

/-- A valid parameter set for which the breakeven point lies inside the
search interval: the default state with cheap satellite hardware, no
accelerator failures and no NRE. -/
def breakevenWitnessState : State :=
  { defaultState with satelliteCostPerW := 5, gpuFailureRate := 0, nreCost := 0 }

lemma breakevenWitnessState_count : V1Audit.satellite_count breakevenWitnessState = 39731 := by
  unfold V1Audit.satellite_count V1Audit.required_initial_power_w
    V1Audit.sunlight_adjusted_factor V1Audit.avg_capacity_factor V1Audit.capacity_sum
    V1Audit.annual_retention V1Audit.target_power_w V1Audit.target_power_mw
  rw [Int.ceil_eq_iff]
  constructor <;> norm_num [breakevenWitnessState, defaultState, Finset.sum_range_succ]

lemma breakevenWitnessState_bracket_low :
    V1Audit.cost_per_w (V1Audit.setLaunch breakevenWitnessState 0) ≤
      V1Audit.terr_cost_per_w breakevenWitnessState := by
  rw [V1Audit.cost_per_w_setLaunch]
  simp only [V1Audit.hardware_cost, V1Audit.ops_cost, V1Audit.gpu_replacement_cost,
    V1Audit.nre_cost, V1Audit.actual_initial_power_w, V1Audit.total_mass_kg,
    V1Audit.mass_per_satellite_kg, V1Audit.target_power_w, V1Audit.target_power_mw,
    V1Audit.terr_cost_per_w, V1Audit.terr_total_cost, V1Audit.infra_capex,
    V1Audit.power_gen_cost_per_w, V1Audit.fuel_cost_total, V1Audit.fuel_cost_per_mwh,
    V1Audit.generation_mwh, V1Audit.energy_mwh, V1Audit.total_hours, V1Audit.HOURS_PER_YEAR,
    breakevenWitnessState_count]
  norm_num [breakevenWitnessState, defaultState]

lemma breakevenWitnessState_bracket_high :
    V1Audit.terr_cost_per_w breakevenWitnessState <
      V1Audit.cost_per_w (V1Audit.setLaunch breakevenWitnessState 10000) := by
  rw [V1Audit.cost_per_w_setLaunch]
  simp only [V1Audit.hardware_cost, V1Audit.ops_cost, V1Audit.gpu_replacement_cost,
    V1Audit.nre_cost, V1Audit.actual_initial_power_w, V1Audit.total_mass_kg,
    V1Audit.mass_per_satellite_kg, V1Audit.target_power_w, V1Audit.target_power_mw,
    V1Audit.terr_cost_per_w, V1Audit.terr_total_cost, V1Audit.infra_capex,
    V1Audit.power_gen_cost_per_w, V1Audit.fuel_cost_total, V1Audit.fuel_cost_per_mwh,
    V1Audit.generation_mwh, V1Audit.energy_mwh, V1Audit.total_hours, V1Audit.HOURS_PER_YEAR,
    breakevenWitnessState_count]
  norm_num [breakevenWitnessState, defaultState]

/-- C7 witness: a concrete valid state that brackets the breakeven point,
on which the fed-back bisection result matches terrestrial cost per watt
within the tolerance. -/
theorem breakeven_feedback_within_tolerance_witness :
    ValidState breakevenWitnessState ∧
      V1Audit.cost_per_w (V1Audit.setLaunch breakevenWitnessState 0) ≤
        V1Audit.terr_cost_per_w breakevenWitnessState ∧
      V1Audit.terr_cost_per_w breakevenWitnessState <
        V1Audit.cost_per_w (V1Audit.setLaunch breakevenWitnessState 10000) ∧
      |V1Audit.cost_per_w
          (V1Audit.setLaunch breakevenWitnessState
            (V1Audit.breakeven_launch breakevenWitnessState)) -
        V1Audit.terr_cost_per_w breakevenWitnessState| ≤ 1 := by
  have hv : ValidState breakevenWitnessState := by
    norm_num [ValidState, breakevenWitnessState, defaultState]
  exact ⟨hv, breakevenWitnessState_bracket_low, breakevenWitnessState_bracket_high,
    breakeven_feedback_within_tolerance breakevenWitnessState hv
      breakevenWitnessState_bracket_low breakevenWitnessState_bracket_high⟩
